import Mathlib

/-!
Verification of the VyOS desktop configuration command engine: a shallow
embedding of the Sanitizer (`validators.ts`), the Command Builder
(`CommandBuilder.ts`), the Configuration Parser (`ConfigParser.ts`) and the
Transactional Executor (`CommandExecutor.ts`), with theorems checking the
specification's claims against the embedded code.

All string manipulation is implemented with structural recursion over
`List Char` so that every definition is executable and kernel-reducible.
-/

-- ============================================================
-- Character and string helpers
-- ============================================================

def squoteChar : Char := Char.ofNat 39

def dquoteChar : Char := Char.ofNat 34

def bslashChar : Char := Char.ofNat 92

def spaceChar : Char := Char.ofNat 32

def nlChar : Char := Char.ofNat 10

def prefixChars : List Char → List Char → Bool
  | [], _ => true
  | _ :: _, [] => false
  | a :: as, b :: bs => a == b && prefixChars as bs

def subListChars (needle : List Char) : List Char → Bool
  | [] => needle.isEmpty
  | c :: cs => prefixChars needle (c :: cs) || subListChars needle cs

/-- JavaScript `s.includes(sub)`. -/
def strIncludes (s sub : String) : Bool := subListChars sub.toList s.toList

/-- Two literal token lists disagree at some position both of them cover
(used to tell statements apart by their leading keyword). -/
def conflictChars : List Char → List Char → Bool
  | a :: as, b :: bs => !(a == b) || conflictChars as bs
  | _, _ => false

/-- JavaScript `String.prototype.split` on a single separator character. -/
def splitChar (sep : Char) : List Char → List (List Char)
  | [] => [[]]
  | c :: cs =>
    let r := splitChar sep cs
    if c == sep then [] :: r
    else
      match r with
      | [] => [[c]]
      | h :: t => (c :: h) :: t

/-- JavaScript `String.prototype.trim` (ASCII whitespace suffices here). -/
def trimChars (cs : List Char) : List Char :=
  ((cs.dropWhile Char.isWhitespace).reverse.dropWhile Char.isWhitespace).reverse

-- ============================================================
-- Sanitizer (`sanitizeConfigValue` in src/shared/validators.ts)
-- ============================================================

/-- `value.replace(/'/g, "\\'")`: each single quote becomes backslash-quote. -/
def escapeQuotes : List Char → List Char
  | [] => []
  | c :: cs =>
    if c = squoteChar then bslashChar :: squoteChar :: escapeQuotes cs
    else c :: escapeQuotes cs

/-- `sanitizeConfigValue` from `validators.ts`: if the value contains a space
character or a single quote, wrap it in single quotes with internal single
quotes escaped by a backslash; otherwise return it unchanged. -/
def sanitizeConfigValue (value : String) : String :=
  if value.toList.contains spaceChar || value.toList.contains squoteChar then
    String.mk (squoteChar :: (escapeQuotes value.toList ++ [squoteChar]))
  else value

/-- Modelled from the spec (amended wording for claim C7): wrapping is
triggered by a space (U+0020) or a single quote; escaping realised with
`List.flatMap`, wrapping with string append, so that agreement with the source
definition is a provable statement rather than a restatement. -/
def quoteSpecAmended (value : String) : String :=
  if value.toList.contains spaceChar || value.toList.contains squoteChar then
    "'" ++ String.mk (value.toList.flatMap
      (fun c => if c = squoteChar then [bslashChar, squoteChar] else [c])) ++ "'"
  else value

-- ============================================================
-- Domain models (src/shared/types.ts)
-- ============================================================

inductive InterfaceType where
  | ethernet
  | vlan
  | bond
  | bridge
  | loopback
  | tunnel
deriving DecidableEq

def InterfaceType.render : InterfaceType → String
  | .ethernet => "ethernet"
  | .vlan => "vlan"
  | .bond => "bond"
  | .bridge => "bridge"
  | .loopback => "loopback"
  | .tunnel => "tunnel"

structure AddressConfig where
  ipv4 : List String
  ipv6 : List String
  dhcp : Bool
  dhcpv6 : Bool

structure VLANConfig where
  id : Nat
  parentInterface : String

structure BondConfig where
  mode : String
  members : List String
  primaryInterface : Option String
  hashPolicy : Option String

structure BridgeConfig where
  members : List String
  stp : Bool
  aging : Option Nat
  maxAge : Option Nat

structure NetworkInterface where
  name : String
  type : InterfaceType
  description : Option String
  enabled : Bool
  mtu : Option Nat
  mac : Option String
  addresses : AddressConfig
  vlan : Option VLANConfig
  bond : Option BondConfig
  bridge : Option BridgeConfig

structure FirewallGroupRef where
  addressGroup : Option String
  networkGroup : Option String
  portGroup : Option String

structure FirewallAddress where
  address : Option String
  port : Option String
  group : Option FirewallGroupRef

structure FirewallRuleState where
  established : Bool
  related : Bool
  new : Bool
  invalid : Bool

structure FirewallRule where
  number : Nat
  action : String
  description : Option String
  protocol : Option String
  source : Option FirewallAddress
  destination : Option FirewallAddress
  state : Option FirewallRuleState
  log : Bool
  disabled : Bool

inductive NATType where
  | source
  | destination
deriving DecidableEq

def NATType.render : NATType → String
  | .source => "source"
  | .destination => "destination"

structure NATAddress where
  address : Option String
  port : Option String

structure NATRule where
  number : Nat
  type : NATType
  description : Option String
  disabled : Bool
  outboundInterface : Option String
  inboundInterface : Option String
  source : Option NATAddress
  destination : Option NATAddress
  translation : Option NATAddress
  protocol : Option String

structure IKEProposal where
  encryption : String
  hash : String
  dhGroup : String

structure IKEGroup where
  name : String
  proposal : List IKEProposal
  lifeTime : Option Nat

structure ESPProposal where
  encryption : String
  hash : String

structure ESPGroup where
  name : String
  proposal : List ESPProposal
  lifeTime : Option Nat
  pfs : Option String

structure IPSecAuthentication where
  mode : String
  preSharedSecret : Option String
  remoteId : Option String
  localId : Option String

structure IPSecTunnel where
  id : Nat
  localSubnet : String
  remoteSubnet : String
  protocol : Option String

structure IPSecSite where
  name : String
  authMode : String
  description : Option String
  localAddress : String
  remoteAddress : String
  authentication : IPSecAuthentication
  ikeGroup : IKEGroup
  espGroup : ESPGroup
  tunnels : List IPSecTunnel

-- ============================================================
-- Command Builder (CommandBuilder.ts)
-- ============================================================

/-- The `basePath` of `buildInterfaceCommands`. -/
def interfaceBasePath (iface : NetworkInterface) : String :=
  "interfaces " ++ iface.type.render ++ " " ++ iface.name

/-- `CommandBuilder.buildInterfaceCommands`.  JavaScript truthiness is made
explicit: an absent optional field, an empty string and the number zero all
skip their statement. -/
def buildInterfaceCommands (iface : NetworkInterface) : List String :=
  (match iface.description with
   | some d =>
     if d = "" then []
     else ["set " ++ interfaceBasePath iface ++ " description " ++ sanitizeConfigValue d]
   | none => [])
  ++ (match iface.mtu with
      | some m => if m = 0 then [] else ["set " ++ interfaceBasePath iface ++ " mtu " ++ toString m]
      | none => [])
  ++ (match iface.mac with
      | some m => if m = "" then [] else ["set " ++ interfaceBasePath iface ++ " mac " ++ m]
      | none => [])
  ++ iface.addresses.ipv4.map
      (fun addr => "set " ++ interfaceBasePath iface ++ " address " ++ sanitizeConfigValue addr)
  ++ iface.addresses.ipv6.map
      (fun addr => "set " ++ interfaceBasePath iface ++ " address " ++ sanitizeConfigValue addr)
  ++ (if iface.addresses.dhcp then ["set " ++ interfaceBasePath iface ++ " address dhcp"] else [])
  ++ (if iface.addresses.dhcpv6 then ["set " ++ interfaceBasePath iface ++ " address dhcpv6"] else [])
  ++ (if iface.type = InterfaceType.vlan then
        (match iface.vlan with
         | some v => ["set " ++ interfaceBasePath iface ++ " vlan id " ++ toString v.id]
         | none => [])
      else [])
  ++ (if iface.type = InterfaceType.bond then
        (match iface.bond with
         | some b =>
           ["set " ++ interfaceBasePath iface ++ " mode " ++ b.mode]
           ++ b.members.map (fun m => "set " ++ interfaceBasePath iface ++ " member interface " ++ m)
           ++ (match b.primaryInterface with
               | some p => if p = "" then [] else ["set " ++ interfaceBasePath iface ++ " primary " ++ p]
               | none => [])
           ++ (match b.hashPolicy with
               | some hp => if hp = "" then [] else ["set " ++ interfaceBasePath iface ++ " hash-policy " ++ hp]
               | none => [])
         | none => [])
      else [])
  ++ (if iface.type = InterfaceType.bridge then
        (match iface.bridge with
         | some b =>
           b.members.map (fun m => "set " ++ interfaceBasePath iface ++ " member interface " ++ m)
           ++ (if b.stp then ["set " ++ interfaceBasePath iface ++ " stp"] else [])
           ++ (match b.aging with
               | some a => if a = 0 then [] else ["set " ++ interfaceBasePath iface ++ " aging " ++ toString a]
               | none => [])
           ++ (match b.maxAge with
               | some a => if a = 0 then [] else ["set " ++ interfaceBasePath iface ++ " max-age " ++ toString a]
               | none => [])
         | none => [])
      else [])
  ++ (if iface.enabled then ["delete " ++ interfaceBasePath iface ++ " disable"]
      else ["set " ++ interfaceBasePath iface ++ " disable"])

/-- The `basePath` of `buildFirewallRuleCommands`. -/
def firewallRulePath (rulesetName : String) (number : Nat) : String :=
  "firewall name " ++ rulesetName ++ " rule " ++ toString number

/-- `CommandBuilder.buildFirewallRuleCommands`. -/
def buildFirewallRuleCommands (rulesetName : String) (rule : FirewallRule) : List String :=
  ["set " ++ firewallRulePath rulesetName rule.number ++ " action " ++ rule.action]
  ++ (match rule.description with
      | some d =>
        if d = "" then []
        else ["set " ++ firewallRulePath rulesetName rule.number ++ " description " ++ sanitizeConfigValue d]
      | none => [])
  ++ (match rule.protocol with
      | some p => if p = "" then [] else ["set " ++ firewallRulePath rulesetName rule.number ++ " protocol " ++ p]
      | none => [])
  ++ (match rule.source with
      | some s =>
        (match s.address with
         | some a => if a = "" then [] else ["set " ++ firewallRulePath rulesetName rule.number ++ " source address " ++ a]
         | none => [])
        ++ (match s.port with
            | some p => if p = "" then [] else ["set " ++ firewallRulePath rulesetName rule.number ++ " source port " ++ p]
            | none => [])
        ++ (match s.group with
            | some g =>
              (match g.addressGroup with
               | some ag => if ag = "" then [] else ["set " ++ firewallRulePath rulesetName rule.number ++ " source group address-group " ++ ag]
               | none => [])
              ++ (match g.networkGroup with
                  | some ng => if ng = "" then [] else ["set " ++ firewallRulePath rulesetName rule.number ++ " source group network-group " ++ ng]
                  | none => [])
            | none => [])
      | none => [])
  ++ (match rule.destination with
      | some s =>
        (match s.address with
         | some a => if a = "" then [] else ["set " ++ firewallRulePath rulesetName rule.number ++ " destination address " ++ a]
         | none => [])
        ++ (match s.port with
            | some p => if p = "" then [] else ["set " ++ firewallRulePath rulesetName rule.number ++ " destination port " ++ p]
            | none => [])
        ++ (match s.group with
            | some g =>
              (match g.addressGroup with
               | some ag => if ag = "" then [] else ["set " ++ firewallRulePath rulesetName rule.number ++ " destination group address-group " ++ ag]
               | none => [])
              ++ (match g.portGroup with
                  | some pg => if pg = "" then [] else ["set " ++ firewallRulePath rulesetName rule.number ++ " destination group port-group " ++ pg]
                  | none => [])
            | none => [])
      | none => [])
  ++ (match rule.state with
      | some st =>
        (if st.established then ["set " ++ firewallRulePath rulesetName rule.number ++ " state established enable"] else [])
        ++ (if st.related then ["set " ++ firewallRulePath rulesetName rule.number ++ " state related enable"] else [])
        ++ (if st.new then ["set " ++ firewallRulePath rulesetName rule.number ++ " state new enable"] else [])
        ++ (if st.invalid then ["set " ++ firewallRulePath rulesetName rule.number ++ " state invalid enable"] else [])
      | none => [])
  ++ (if rule.log then ["set " ++ firewallRulePath rulesetName rule.number ++ " log enable"] else [])
  ++ (if rule.disabled then ["set " ++ firewallRulePath rulesetName rule.number ++ " disable"] else [])

/-- The `basePath` of `buildNATRuleCommands`. -/
def natRulePath (rule : NATRule) : String :=
  "nat " ++ rule.type.render ++ " rule " ++ toString rule.number

/-- `CommandBuilder.buildNATRuleCommands`. -/
def buildNATRuleCommands (rule : NATRule) : List String :=
  (match rule.description with
   | some d =>
     if d = "" then []
     else ["set " ++ natRulePath rule ++ " description " ++ sanitizeConfigValue d]
   | none => [])
  ++ (if rule.type = NATType.source then
        (match rule.outboundInterface with
         | some i => if i = "" then [] else ["set " ++ natRulePath rule ++ " outbound-interface " ++ i]
         | none => [])
      else [])
  ++ (if rule.type = NATType.destination then
        (match rule.inboundInterface with
         | some i => if i = "" then [] else ["set " ++ natRulePath rule ++ " inbound-interface " ++ i]
         | none => [])
      else [])
  ++ (match rule.protocol with
      | some p => if p = "" then [] else ["set " ++ natRulePath rule ++ " protocol " ++ p]
      | none => [])
  ++ (match rule.source with
      | some s =>
        (match s.address with
         | some a => if a = "" then [] else ["set " ++ natRulePath rule ++ " source address " ++ a]
         | none => [])
        ++ (match s.port with
            | some p => if p = "" then [] else ["set " ++ natRulePath rule ++ " source port " ++ p]
            | none => [])
      | none => [])
  ++ (match rule.destination with
      | some s =>
        (match s.address with
         | some a => if a = "" then [] else ["set " ++ natRulePath rule ++ " destination address " ++ a]
         | none => [])
        ++ (match s.port with
            | some p => if p = "" then [] else ["set " ++ natRulePath rule ++ " destination port " ++ p]
            | none => [])
      | none => [])
  ++ (match rule.translation with
      | some t =>
        (match t.address with
         | some a => if a = "" then [] else ["set " ++ natRulePath rule ++ " translation address " ++ a]
         | none => [])
        ++ (match t.port with
            | some p => if p = "" then [] else ["set " ++ natRulePath rule ++ " translation port " ++ p]
            | none => [])
      | none => [])
  ++ (if rule.disabled then ["set " ++ natRulePath rule ++ " disable"] else [])

/-- `CommandBuilder.buildIPSecCommands`.  The `forEach((x, index))` loops are
rendered with `List.enum`, whose index starts at 0 as in JavaScript. -/
def buildIPSecCommands (site : IPSecSite) : List String :=
  site.ikeGroup.proposal.enum.flatMap
    (fun p =>
      ["set vpn ipsec ike-group " ++ site.ikeGroup.name ++ " proposal " ++ toString (p.1 + 1) ++ " encryption " ++ p.2.encryption,
       "set vpn ipsec ike-group " ++ site.ikeGroup.name ++ " proposal " ++ toString (p.1 + 1) ++ " hash " ++ p.2.hash,
       "set vpn ipsec ike-group " ++ site.ikeGroup.name ++ " proposal " ++ toString (p.1 + 1) ++ " dh-group " ++ p.2.dhGroup])
  ++ (match site.ikeGroup.lifeTime with
      | some t => if t = 0 then [] else ["set vpn ipsec ike-group " ++ site.ikeGroup.name ++ " lifetime " ++ toString t]
      | none => [])
  ++ site.espGroup.proposal.enum.flatMap
      (fun p =>
        ["set vpn ipsec esp-group " ++ site.espGroup.name ++ " proposal " ++ toString (p.1 + 1) ++ " encryption " ++ p.2.encryption,
         "set vpn ipsec esp-group " ++ site.espGroup.name ++ " proposal " ++ toString (p.1 + 1) ++ " hash " ++ p.2.hash])
  ++ (match site.espGroup.lifeTime with
      | some t => if t = 0 then [] else ["set vpn ipsec esp-group " ++ site.espGroup.name ++ " lifetime " ++ toString t]
      | none => [])
  ++ (match site.espGroup.pfs with
      | some p => if p = "" then [] else ["set vpn ipsec esp-group " ++ site.espGroup.name ++ " pfs " ++ p]
      | none => [])
  ++ ["set vpn ipsec site-to-site peer " ++ site.remoteAddress ++ " authentication mode " ++ site.authentication.mode]
  ++ (if site.authentication.mode = "pre-shared-secret" then
        (match site.authentication.preSharedSecret with
         | some s =>
           if s = "" then []
           else ["set vpn ipsec site-to-site peer " ++ site.remoteAddress ++ " authentication pre-shared-secret " ++ sanitizeConfigValue s]
         | none => [])
      else [])
  ++ (match site.authentication.remoteId with
      | some r =>
        if r = "" then []
        else ["set vpn ipsec site-to-site peer " ++ site.remoteAddress ++ " authentication remote-id " ++ sanitizeConfigValue r]
      | none => [])
  ++ (match site.authentication.localId with
      | some l =>
        if l = "" then []
        else ["set vpn ipsec site-to-site peer " ++ site.remoteAddress ++ " authentication local-id " ++ sanitizeConfigValue l]
      | none => [])
  ++ ["set vpn ipsec site-to-site peer " ++ site.remoteAddress ++ " ike-group " ++ site.ikeGroup.name,
      "set vpn ipsec site-to-site peer " ++ site.remoteAddress ++ " local-address " ++ site.localAddress]
  ++ (match site.description with
      | some d =>
        if d = "" then []
        else ["set vpn ipsec site-to-site peer " ++ site.remoteAddress ++ " description " ++ sanitizeConfigValue d]
      | none => [])
  ++ site.tunnels.flatMap
      (fun tunnel =>
        ["set vpn ipsec site-to-site peer " ++ site.remoteAddress ++ " tunnel " ++ toString tunnel.id ++ " local prefix " ++ tunnel.localSubnet,
         "set vpn ipsec site-to-site peer " ++ site.remoteAddress ++ " tunnel " ++ toString tunnel.id ++ " remote prefix " ++ tunnel.remoteSubnet,
         "set vpn ipsec site-to-site peer " ++ site.remoteAddress ++ " tunnel " ++ toString tunnel.id ++ " esp-group " ++ site.espGroup.name]
        ++ (match tunnel.protocol with
            | some p => if p = "" then [] else ["set vpn ipsec site-to-site peer " ++ site.remoteAddress ++ " tunnel " ++ toString tunnel.id ++ " protocol " ++ p]
            | none => []))

/-- The enable/disable toggle statement `buildInterfaceCommands` always emits
last: `delete <path> disable` when enabled, `set <path> disable` when
disabled. -/
def interfaceToggle (iface : NetworkInterface) : String :=
  if iface.enabled then "delete " ++ interfaceBasePath iface ++ " disable"
  else "set " ++ interfaceBasePath iface ++ " disable"

/-- The disable statement `buildFirewallRuleCommands` emits for a disabled
rule. -/
def ruleToggle (rulesetName : String) (number : Nat) : String :=
  "set " ++ firewallRulePath rulesetName number ++ " disable"

/-- The enable statement the spec expects for an enabled firewall rule; the
source never emits it. -/
def ruleDeleteToggle (rulesetName : String) (number : Nat) : String :=
  "delete " ++ firewallRulePath rulesetName number ++ " disable"

/-- The disable statement `buildNATRuleCommands` emits for a disabled rule. -/
def natToggle (rule : NATRule) : String :=
  "set " ++ natRulePath rule ++ " disable"

/-- The enable statement the spec expects for an enabled NAT rule; the source
never emits it. -/
def natDeleteToggle (rule : NATRule) : String :=
  "delete " ++ natRulePath rule ++ " disable"

-- ============================================================
-- Configuration Parser (ConfigParser.ts)
-- ============================================================

/-- The tree built by `ConfigParser.parse`: a JavaScript object whose values
are nested objects (`branch`, insertion-ordered) or `true` (`leaf`). -/
inductive ConfigNode where
  | leaf : ConfigNode
  | branch : List (String × ConfigNode) → ConfigNode

/-- JavaScript property read `node[k]`. -/
def getKey : List (String × ConfigNode) → String → Option ConfigNode
  | [], _ => none
  | (k', v') :: rest, k => if k' = k then some v' else getKey rest k

/-- JavaScript property write `node[k] = v` (updates in place, otherwise
appends; key order of the object is preserved). -/
def setKey : List (String × ConfigNode) → String → ConfigNode → List (String × ConfigNode)
  | [], k, v => [(k, v)]
  | (k', v') :: rest, k, v => if k' = k then (k, v) :: rest else (k', v') :: setKey rest k v

/-- The tokenizer loop of `ConfigParser.addToTree`: single and double quotes
toggle a verbatim mode and are dropped; spaces outside quotes split. -/
def tokenizeAux : List Char → Bool → List Char → List String → List String
  | [], _, current, acc =>
    if current = [] then acc else acc ++ [String.mk current]
  | c :: cs, inQuotes, current, acc =>
    if c = squoteChar ∨ c = dquoteChar then tokenizeAux cs (!inQuotes) current acc
    else if c = spaceChar ∧ inQuotes = false then
      (if current = [] then tokenizeAux cs inQuotes [] acc
       else tokenizeAux cs inQuotes [] (acc ++ [String.mk current]))
    else tokenizeAux cs inQuotes (current ++ [c]) acc

def tokenizePath (path : List Char) : List String := tokenizeAux path false [] []

/-- The tree-building part of `ConfigParser.addToTree`.  All tokens but the
last walk (creating missing children as empty branches); the last token is
written as a leaf.  Descending *into* an existing leaf gets stuck: the writes
of the remaining segments are silently lost (a property write on the
primitive `true`), and the final write is skipped by the
`typeof node === 'object'` guard; a final token landing on a branch
overwrites that branch with a leaf. -/
def insertPath : ConfigNode → List String → ConfigNode
  | ConfigNode.leaf, _ => ConfigNode.leaf
  | ConfigNode.branch kvs, [] => ConfigNode.branch (setKey kvs "undefined" ConfigNode.leaf)
  | ConfigNode.branch kvs, [last] => ConfigNode.branch (setKey kvs last ConfigNode.leaf)
  | ConfigNode.branch kvs, k :: rest =>
    ConfigNode.branch
      (setKey kvs k (insertPath ((getKey kvs k).getD (ConfigNode.branch [])) rest))

/-- `ConfigParser.parse`: keep the lines that start with `set `, strip the
prefix, tokenize, and insert into the tree. -/
def parse (configText : String) : ConfigNode :=
  (splitChar nlChar configText.toList).foldl
    (fun tree lineCs =>
      let t := trimChars lineCs
      if prefixChars "set ".toList t then insertPath tree (tokenizePath (t.drop 4))
      else tree)
    (ConfigNode.branch [])

/-- Walk a fixed path of keys down the tree (the optional-chaining reads the
typed parse functions start with). -/
def getPath : ConfigNode → List String → Option ConfigNode
  | t, [] => some t
  | ConfigNode.leaf, _ :: _ => none
  | ConfigNode.branch kvs, k :: rest =>
    match getKey kvs k with
    | none => none
    | some c => getPath c rest

/-- JavaScript `Object.entries` on a tree node (a primitive has none). -/
def childEntries : ConfigNode → List (String × ConfigNode)
  | ConfigNode.leaf => []
  | ConfigNode.branch kvs => kvs

/-- `ConfigParser.parseIPSecSites`: guards on
`config.vpn?.ipsec?.['site-to-site']?.peer`, then iterates the peers with a
body that only logs — no site is ever pushed onto the result. -/
def parseIPSecSites (config : ConfigNode) : List IPSecSite :=
  match getPath config ["vpn", "ipsec", "site-to-site", "peer"] with
  | none => []
  | some peers => (childEntries peers).foldl (fun sites _ => sites) []

/-- Join builder statements into the text form `parse` consumes
(the `render` of the duality contract). -/
def renderLines : List String → String
  | [] => ""
  | [s] => s
  | s :: rest => s ++ "\n" ++ renderLines rest

-- ============================================================
-- Transactional Executor (CommandExecutor.ts)
-- ============================================================

/-- `VYOS_COMMANDS` lifecycle injection of `executeWithRollback`:
`[configure, ...commands, commit?, save?, exit]`. -/
def fullCommands (commands : List String) (commit save : Bool) : List String :=
  ["configure"] ++ commands
  ++ (if commit then ["commit"] else [])
  ++ (if save then ["save"] else [])
  ++ ["exit"]

/-- The regular expression `/\[.*\]\s*ERROR/` of `parseErrors`: after a `]`
skip whitespace, then expect `ERROR` (helper for the closing bracket). -/
def afterBracketClose : List Char → Bool
  | [] => false
  | c :: cs =>
    (c == Char.ofNat 93 && prefixChars "ERROR".toList (cs.dropWhile Char.isWhitespace))
    || afterBracketClose cs

/-- The regular expression `/\[.*\]\s*ERROR/` of `parseErrors`: some `[`
followed (anywhere later) by `]`, whitespace, `ERROR`. -/
def bracketErrorPat : List Char → Bool
  | [] => false
  | c :: cs => (c == Char.ofNat 91 && afterBracketClose cs) || bracketErrorPat cs

/-- The per-line test of `CommandExecutor.parseErrors`. -/
def isErrorLine (t : String) : Bool :=
  strIncludes t "Error:" || strIncludes t "Invalid" || strIncludes t "Failed"
  || strIncludes t "Configuration path:" || bracketErrorPat t.toList

/-- `CommandExecutor.parseErrors`: trimmed lines matching a VyOS error
pattern. -/
def parseErrors (output : String) : List String :=
  ((splitChar nlChar output.toList).map (fun l => String.mk (trimChars l))).filter isErrorLine

/-- `CommandExecutor.hasCommitFailed`: any commit-failure pattern occurs in
the whole output. -/
def hasCommitFailed (output : String) : Bool :=
  strIncludes output "Commit failed" || strIncludes output "Configuration commit aborted"
  || strIncludes output "Pre-commit check failed" || strIncludes output "Error: Configuration path"
  || strIncludes output "Validation failed"

/-- `CommandExecutor.rollback`: the fixed compensating statement sequence. -/
def rollbackCommands (revision : Nat) : List String :=
  ["configure", "rollback " ++ toString revision, "commit", "save", "exit"]

/-- The errors `executeWithRollback` can surface, by constructor:
`ok` (no error), `cmdError` (`VyOSCommandError` from an error marker),
`commitError` (`VyOSCommitError`), `cmdAndRollbackError` (the
`VyOSCommandError` wrapping an original failure whose rollback also
failed). -/
inductive ExecOutcome where
  | ok
  | cmdError
  | commitError
  | cmdAndRollbackError
deriving DecidableEq

structure ExecTrace where
  sent : List (List String)
  outcome : ExecOutcome

/-- `CommandExecutor.executeWithRollback`, as a function of the transcript the
main shell invocation returns (`mainOutput`) and the transcript a rollback
shell invocation would return (`rollbackOutput`).  `sent` records the batches
written to shell channels, in order. -/
def executeWithRollback (commands : List String) (commit save : Bool)
    (mainOutput rollbackOutput : String) : ExecTrace :=
  if parseErrors mainOutput ≠ [] then
    { sent := [fullCommands commands commit save, rollbackCommands 0],
      outcome :=
        if hasCommitFailed rollbackOutput then ExecOutcome.cmdAndRollbackError
        else ExecOutcome.cmdError }
  else if commit && hasCommitFailed mainOutput then
    { sent := [fullCommands commands commit save, rollbackCommands 0],
      outcome :=
        if hasCommitFailed rollbackOutput then ExecOutcome.cmdAndRollbackError
        else ExecOutcome.commitError }
  else { sent := [fullCommands commands commit save], outcome := ExecOutcome.ok }

-- ============================================================
-- Concrete instances used by the theorems
-- ============================================================

/-- The ethernet interface of the spec's end-to-end scenario. -/
def c2Iface : NetworkInterface :=
  { name := "eth1", type := InterfaceType.ethernet, description := some "LAN Interface",
    enabled := true, mtu := none, mac := none,
    addresses := { ipv4 := ["192.168.1.1/24"], ipv6 := [], dhcp := false, dhcpv6 := false },
    vlan := none, bond := none, bridge := none }

/-- An enabled (not disabled) firewall rule with only the mandatory action. -/
def c3Rule : FirewallRule :=
  { number := 10, action := "accept", description := none, protocol := none,
    source := none, destination := none, state := none, log := false, disabled := false }

/-- A source NAT rule whose source address contains a space. -/
def c5Rule : NATRule :=
  { number := 10, type := NATType.source, description := none, disabled := false,
    outboundInterface := none, inboundInterface := none,
    source := some { address := some "has space", port := none },
    destination := none, translation := none, protocol := none }

/-- The firewall rule `c3Rule` with the disabled flag set. -/
def c3dRule : FirewallRule :=
  { number := 10, action := "accept", description := none, protocol := none,
    source := none, destination := none, state := none, log := false, disabled := true }

/-- A disabled source NAT rule with only the mandatory fields. -/
def c3dNat : NATRule :=
  { number := 10, type := NATType.source, description := none, disabled := true,
    outboundInterface := none, inboundInterface := none, source := none,
    destination := none, translation := none, protocol := none }

/-- A complete, validator-accepted IPsec site-to-site configuration. -/
def c1Site : IPSecSite :=
  { name := "office", authMode := "pre-shared-secret", description := none,
    localAddress := "10.0.0.1", remoteAddress := "203.0.113.5",
    authentication := { mode := "pre-shared-secret", preSharedSecret := some "secretkey",
                        remoteId := none, localId := none },
    ikeGroup := { name := "IKE1",
                  proposal := [{ encryption := "aes256", hash := "sha256", dhGroup := "14" }],
                  lifeTime := some 3600 },
    espGroup := { name := "ESP1",
                  proposal := [{ encryption := "aes256", hash := "sha256" }],
                  lifeTime := some 1800, pfs := none },
    tunnels := [{ id := 0, localSubnet := "192.168.1.0/24", remoteSubnet := "192.168.2.0/24",
                  protocol := none }] }

-- ============================================================
-- Helper lemmas
-- ============================================================

theorem escapeQuotes_eq_bind (l : List Char) :
    escapeQuotes l =
      l.flatMap (fun c => if c = squoteChar then [bslashChar, squoteChar] else [c]) := by
  induction l with
  | nil => rfl
  | cons c cs ih =>
    by_cases h : c = squoteChar
    · simp [escapeQuotes, h, ih]
    · simp [escapeQuotes, h, ih]

theorem sanitize_eq_quoteSpecAmended (v : String) :
    sanitizeConfigValue v = quoteSpecAmended v := by
  unfold sanitizeConfigValue quoteSpecAmended
  by_cases h : (v.toList.contains spaceChar || v.toList.contains squoteChar) = true
  · rw [if_pos h, if_pos h, escapeQuotes_eq_bind]
    rfl
  · rw [if_neg h, if_neg h]

theorem foldl_keep {α β : Type} (a : α) (l : List β) :
    List.foldl (fun s _ => s) a l = a := by
  induction l with
  | nil => rfl
  | cons x xs ih => exact ih

theorem parseIPSecSites_nil (config : ConfigNode) : parseIPSecSites config = [] := by
  unfold parseIPSecSites
  cases getPath config ["vpn", "ipsec", "site-to-site", "peer"] with
  | none => rfl
  | some peers => exact foldl_keep [] (childEntries peers)

theorem toList_append (s t : String) : (s ++ t).toList = s.toList ++ t.toList := by
  obtain ⟨a⟩ := s
  obtain ⟨b⟩ := t
  rfl

theorem string_append_assoc (a b c : String) : a ++ b ++ c = a ++ (b ++ c) := by
  obtain ⟨x⟩ := a
  obtain ⟨y⟩ := b
  obtain ⟨z⟩ := c
  show String.mk (x ++ y ++ z) = String.mk (x ++ (y ++ z))
  rw [List.append_assoc]

theorem string_append_left_cancel {p s t : String} (h : p ++ s = p ++ t) : s = t := by
  obtain ⟨pd⟩ := p
  obtain ⟨sd⟩ := s
  obtain ⟨td⟩ := t
  have h2 : pd ++ sd = pd ++ td := congrArg String.data h
  exact congrArg String.mk (List.append_cancel_left h2)

theorem prefixChars_self_append (l r : List Char) : prefixChars l (l ++ r) = true := by
  induction l with
  | nil => rfl
  | cons a as ih => simp [prefixChars, ih]

theorem not_conflict_of_common (p q l : List Char) (hp : prefixChars p l = true)
    (hq : prefixChars q l = true) : conflictChars p q = false := by
  induction p generalizing q l with
  | nil => cases q <;> rfl
  | cons a as ih =>
    cases q with
    | nil => rfl
    | cons b bs =>
      cases l with
      | nil => simp [prefixChars] at hp
      | cons c cs =>
        simp only [prefixChars, Bool.and_eq_true, beq_iff_eq] at hp hq
        obtain ⟨hac, hp2⟩ := hp
        obtain ⟨hbc, hq2⟩ := hq
        have hab : (a == b) = true := by rw [beq_iff_eq, hac, hbc]
        simp only [conflictChars, hab, Bool.not_true, Bool.false_or]
        exact ih bs cs hp2 hq2

theorem lit_append_ne (lit x tgt : String)
    (h : prefixChars lit.toList tgt.toList = false) : lit ++ x = tgt → False := by
  intro he
  have hp : prefixChars lit.toList tgt.toList = true := by
    rw [← he, toList_append]
    exact prefixChars_self_append _ _
  rw [h] at hp
  exact Bool.noConfusion hp

/-- A statement `set <P><tail>` differs from `set <P><lit><x>` whenever the
literal `lit` is not a prefix of `tail`, whatever the user-supplied `x` is. -/
theorem set_tail_ne (P tail lit x : String)
    (h : prefixChars lit.toList tail.toList = false) :
    ("set " ++ P ++ tail) = ("set " ++ P ++ lit ++ x) → False := by
  intro he
  simp only [string_append_assoc] at he
  exact lit_append_ne lit x tail h
    (string_append_left_cancel (string_append_left_cancel he)).symm

theorem set_tail_ne_fixed (P a b : String) (h : a ≠ b) :
    ("set " ++ P ++ a) = ("set " ++ P ++ b) → False := by
  intro he
  simp only [string_append_assoc] at he
  exact h (string_append_left_cancel (string_append_left_cancel he))

theorem delete_ne_set_stmt (u v : String) : ("delete " ++ u) = ("set " ++ v) → False := by
  intro he
  have hs : prefixChars "delete ".toList (("delete " ++ u).toList) = true := by
    rw [toList_append]
    exact prefixChars_self_append _ _
  have ht : prefixChars "set ".toList (("set " ++ v).toList) = true := by
    rw [toList_append]
    exact prefixChars_self_append _ _
  rw [he] at hs
  have hcon := not_conflict_of_common _ _ _ hs ht
  rw [show conflictChars "delete ".toList "set ".toList = true from by decide] at hcon
  exact Bool.noConfusion hcon

theorem count_getLast_of_concat {l pre : List String} {a : String}
    (h : l = pre ++ [a]) (hna : a ∉ pre) : l.count a = 1 ∧ l.getLast? = some a := by
  subst h
  refine ⟨?_, List.getLast?_concat _⟩
  rw [List.count_append, List.count_eq_zero.2 hna]
  simp

theorem fw_pre_no_toggle (nm : String) (num : Nat) (act : String)
    (desc proto : Option String) (src dst : Option FirewallAddress)
    (st : Option FirewallRuleState) (lg : Bool) :
    ruleToggle nm num ∉
      buildFirewallRuleCommands nm ⟨num, act, desc, proto, src, dst, st, lg, false⟩ := by
  unfold buildFirewallRuleCommands ruleToggle
  simp only [List.append_assoc, List.mem_append, not_or]
  refine ⟨?_, ?_, ?_, ?_, ?_, ?_, ?_, ?_⟩
  · simp only [List.mem_singleton]
    intro hEq
    exact set_tail_ne (firewallRulePath nm num) " disable" " action " act (by decide) hEq
  · cases desc with
    | none => simp
    | some d =>
      by_cases hd : d = ""
      · simp [hd]
      · simp only [hd, if_false, List.mem_singleton]
        intro hEq
        exact set_tail_ne _ " disable" " description " _ (by decide) hEq
  · cases proto with
    | none => simp
    | some p =>
      by_cases hp : p = ""
      · simp [hp]
      · simp only [hp, if_false, List.mem_singleton]
        intro hEq
        exact set_tail_ne _ " disable" " protocol " _ (by decide) hEq
  · cases src with
    | none => simp
    | some s =>
      obtain ⟨sa, sp, sg⟩ := s
      simp only [List.append_assoc, List.mem_append, not_or]
      refine ⟨?_, ?_, ?_⟩
      · cases sa with
        | none => simp
        | some a =>
          by_cases ha : a = ""
          · simp [ha]
          · simp only [ha, if_false, List.mem_singleton]
            intro hEq
            exact set_tail_ne _ " disable" " source address " _ (by decide) hEq
      · cases sp with
        | none => simp
        | some p =>
          by_cases hp : p = ""
          · simp [hp]
          · simp only [hp, if_false, List.mem_singleton]
            intro hEq
            exact set_tail_ne _ " disable" " source port " _ (by decide) hEq
      · cases sg with
        | none => simp
        | some g =>
          obtain ⟨ag, ng, pg⟩ := g
          simp only [List.append_assoc, List.mem_append, not_or]
          refine ⟨?_, ?_⟩
          · cases ag with
            | none => simp
            | some a =>
              by_cases ha : a = ""
              · simp [ha]
              · simp only [ha, if_false, List.mem_singleton]
                intro hEq
                exact set_tail_ne _ " disable" " source group address-group " _ (by decide) hEq
          · cases ng with
            | none => simp
            | some n =>
              by_cases hn : n = ""
              · simp [hn]
              · simp only [hn, if_false, List.mem_singleton]
                intro hEq
                exact set_tail_ne _ " disable" " source group network-group " _ (by decide) hEq
  · cases dst with
    | none => simp
    | some s =>
      obtain ⟨sa, sp, sg⟩ := s
      simp only [List.append_assoc, List.mem_append, not_or]
      refine ⟨?_, ?_, ?_⟩
      · cases sa with
        | none => simp
        | some a =>
          by_cases ha : a = ""
          · simp [ha]
          · simp only [ha, if_false, List.mem_singleton]
            intro hEq
            exact set_tail_ne _ " disable" " destination address " _ (by decide) hEq
      · cases sp with
        | none => simp
        | some p =>
          by_cases hp : p = ""
          · simp [hp]
          · simp only [hp, if_false, List.mem_singleton]
            intro hEq
            exact set_tail_ne _ " disable" " destination port " _ (by decide) hEq
      · cases sg with
        | none => simp
        | some g =>
          obtain ⟨ag, ng, pg⟩ := g
          simp only [List.append_assoc, List.mem_append, not_or]
          refine ⟨?_, ?_⟩
          · cases ag with
            | none => simp
            | some a =>
              by_cases ha : a = ""
              · simp [ha]
              · simp only [ha, if_false, List.mem_singleton]
                intro hEq
                exact set_tail_ne _ " disable" " destination group address-group " _ (by decide) hEq
          · cases pg with
            | none => simp
            | some p =>
              by_cases hp : p = ""
              · simp [hp]
              · simp only [hp, if_false, List.mem_singleton]
                intro hEq
                exact set_tail_ne _ " disable" " destination group port-group " _ (by decide) hEq
  · cases st with
    | none => simp
    | some stt =>
      obtain ⟨e, r, n, i⟩ := stt
      simp only [List.append_assoc, List.mem_append, not_or]
      refine ⟨?_, ?_, ?_, ?_⟩
      · cases e with
        | false => simp
        | true =>
          simp only [if_true, List.mem_singleton]
          intro hEq
          exact set_tail_ne_fixed _ " disable" " state established enable" (by decide) hEq
      · cases r with
        | false => simp
        | true =>
          simp only [if_true, List.mem_singleton]
          intro hEq
          exact set_tail_ne_fixed _ " disable" " state related enable" (by decide) hEq
      · cases n with
        | false => simp
        | true =>
          simp only [if_true, List.mem_singleton]
          intro hEq
          exact set_tail_ne_fixed _ " disable" " state new enable" (by decide) hEq
      · cases i with
        | false => simp
        | true =>
          simp only [if_true, List.mem_singleton]
          intro hEq
          exact set_tail_ne_fixed _ " disable" " state invalid enable" (by decide) hEq
  · cases lg with
    | false => simp
    | true =>
      simp only [if_true, List.mem_singleton]
      intro hEq
      exact set_tail_ne_fixed _ " disable" " log enable" (by decide) hEq
  · simp

theorem fw_build_split (nm : String) (num : Nat) (act : String)
    (desc proto : Option String) (src dst : Option FirewallAddress)
    (st : Option FirewallRuleState) (lg : Bool) :
    buildFirewallRuleCommands nm ⟨num, act, desc, proto, src, dst, st, lg, true⟩ =
      buildFirewallRuleCommands nm ⟨num, act, desc, proto, src, dst, st, lg, false⟩ ++
        [ruleToggle nm num] := by
  unfold buildFirewallRuleCommands ruleToggle
  simp

theorem fw_toggle_spec (nm : String) (rule : FirewallRule) :
    (buildFirewallRuleCommands nm rule).count (ruleToggle nm rule.number) =
      (if rule.disabled then 1 else 0) ∧
    (rule.disabled = true →
      (buildFirewallRuleCommands nm rule).getLast? = some (ruleToggle nm rule.number)) := by
  rcases rule with ⟨num, act, desc, proto, src, dst, st, lg, dis⟩
  cases dis with
  | false =>
    refine ⟨?_, ?_⟩
    · rw [List.count_eq_zero.2 (fw_pre_no_toggle nm num act desc proto src dst st lg)]
      rfl
    · intro hx
      exact Bool.noConfusion hx
  | true =>
    obtain ⟨hc, hl⟩ :=
      count_getLast_of_concat (fw_build_split nm num act desc proto src dst st lg)
        (fw_pre_no_toggle nm num act desc proto src dst st lg)
    exact ⟨hc, fun _ => hl⟩

theorem fw_no_delete (nm : String) (rule : FirewallRule) :
    ruleDeleteToggle nm rule.number ∉ buildFirewallRuleCommands nm rule := by
  rcases rule with ⟨num, act, desc, proto, src, dst, st, lg, dis⟩
  unfold buildFirewallRuleCommands ruleDeleteToggle
  simp only [List.append_assoc, List.mem_append, not_or]
  refine ⟨?_, ?_, ?_, ?_, ?_, ?_, ?_, ?_⟩
  · simp only [List.mem_singleton]
    intro hEq
    simp only [string_append_assoc] at hEq
    exact delete_ne_set_stmt _ _ hEq
  · cases desc with
    | none => simp
    | some d =>
      by_cases hd : d = ""
      · simp [hd]
      · simp only [hd, if_false, List.mem_singleton]
        intro hEq
        simp only [string_append_assoc] at hEq
        exact delete_ne_set_stmt _ _ hEq
  · cases proto with
    | none => simp
    | some p =>
      by_cases hp : p = ""
      · simp [hp]
      · simp only [hp, if_false, List.mem_singleton]
        intro hEq
        simp only [string_append_assoc] at hEq
        exact delete_ne_set_stmt _ _ hEq
  · cases src with
    | none => simp
    | some s =>
      obtain ⟨sa, sp, sg⟩ := s
      simp only [List.append_assoc, List.mem_append, not_or]
      refine ⟨?_, ?_, ?_⟩
      · cases sa with
        | none => simp
        | some a =>
          by_cases ha : a = ""
          · simp [ha]
          · simp only [ha, if_false, List.mem_singleton]
            intro hEq
            simp only [string_append_assoc] at hEq
            exact delete_ne_set_stmt _ _ hEq
      · cases sp with
        | none => simp
        | some p =>
          by_cases hp : p = ""
          · simp [hp]
          · simp only [hp, if_false, List.mem_singleton]
            intro hEq
            simp only [string_append_assoc] at hEq
            exact delete_ne_set_stmt _ _ hEq
      · cases sg with
        | none => simp
        | some g =>
          obtain ⟨ag, ng, pg⟩ := g
          simp only [List.append_assoc, List.mem_append, not_or]
          refine ⟨?_, ?_⟩
          · cases ag with
            | none => simp
            | some a =>
              by_cases ha : a = ""
              · simp [ha]
              · simp only [ha, if_false, List.mem_singleton]
                intro hEq
                simp only [string_append_assoc] at hEq
                exact delete_ne_set_stmt _ _ hEq
          · cases ng with
            | none => simp
            | some n =>
              by_cases hn : n = ""
              · simp [hn]
              · simp only [hn, if_false, List.mem_singleton]
                intro hEq
                simp only [string_append_assoc] at hEq
                exact delete_ne_set_stmt _ _ hEq
  · cases dst with
    | none => simp
    | some s =>
      obtain ⟨sa, sp, sg⟩ := s
      simp only [List.append_assoc, List.mem_append, not_or]
      refine ⟨?_, ?_, ?_⟩
      · cases sa with
        | none => simp
        | some a =>
          by_cases ha : a = ""
          · simp [ha]
          · simp only [ha, if_false, List.mem_singleton]
            intro hEq
            simp only [string_append_assoc] at hEq
            exact delete_ne_set_stmt _ _ hEq
      · cases sp with
        | none => simp
        | some p =>
          by_cases hp : p = ""
          · simp [hp]
          · simp only [hp, if_false, List.mem_singleton]
            intro hEq
            simp only [string_append_assoc] at hEq
            exact delete_ne_set_stmt _ _ hEq
      · cases sg with
        | none => simp
        | some g =>
          obtain ⟨ag, ng, pg⟩ := g
          simp only [List.append_assoc, List.mem_append, not_or]
          refine ⟨?_, ?_⟩
          · cases ag with
            | none => simp
            | some a =>
              by_cases ha : a = ""
              · simp [ha]
              · simp only [ha, if_false, List.mem_singleton]
                intro hEq
                simp only [string_append_assoc] at hEq
                exact delete_ne_set_stmt _ _ hEq
          · cases pg with
            | none => simp
            | some p =>
              by_cases hp : p = ""
              · simp [hp]
              · simp only [hp, if_false, List.mem_singleton]
                intro hEq
                simp only [string_append_assoc] at hEq
                exact delete_ne_set_stmt _ _ hEq
  · cases st with
    | none => simp
    | some stt =>
      obtain ⟨e, r, n, i⟩ := stt
      simp only [List.append_assoc, List.mem_append, not_or]
      refine ⟨?_, ?_, ?_, ?_⟩
      · cases e with
        | false => simp
        | true =>
          simp only [if_true, List.mem_singleton]
          intro hEq
          simp only [string_append_assoc] at hEq
          exact delete_ne_set_stmt _ _ hEq
      · cases r with
        | false => simp
        | true =>
          simp only [if_true, List.mem_singleton]
          intro hEq
          simp only [string_append_assoc] at hEq
          exact delete_ne_set_stmt _ _ hEq
      · cases n with
        | false => simp
        | true =>
          simp only [if_true, List.mem_singleton]
          intro hEq
          simp only [string_append_assoc] at hEq
          exact delete_ne_set_stmt _ _ hEq
      · cases i with
        | false => simp
        | true =>
          simp only [if_true, List.mem_singleton]
          intro hEq
          simp only [string_append_assoc] at hEq
          exact delete_ne_set_stmt _ _ hEq
  · cases lg with
    | false => simp
    | true =>
      simp only [if_true, List.mem_singleton]
      intro hEq
      simp only [string_append_assoc] at hEq
      exact delete_ne_set_stmt _ _ hEq
  · cases dis with
    | false => simp
    | true =>
      simp only [if_true, List.mem_singleton]
      intro hEq
      simp only [string_append_assoc] at hEq
      exact delete_ne_set_stmt _ _ hEq

theorem nat_pre_no_toggle (num : Nat) (ty : NATType) (desc obi ibi : Option String)
    (src dst tr : Option NATAddress) (proto : Option String) :
    natToggle ⟨num, ty, desc, false, obi, ibi, src, dst, tr, proto⟩ ∉
      buildNATRuleCommands ⟨num, ty, desc, false, obi, ibi, src, dst, tr, proto⟩ := by
  unfold buildNATRuleCommands natToggle
  simp only [List.append_assoc, List.mem_append, not_or]
  refine ⟨?_, ?_, ?_, ?_, ?_, ?_, ?_, ?_⟩
  · cases desc with
    | none => simp
    | some d =>
      by_cases hd : d = ""
      · simp [hd]
      · simp only [hd, if_false, List.mem_singleton]
        intro hEq
        exact set_tail_ne _ " disable" " description " _ (by decide) hEq
  · by_cases hty : ty = NATType.source
    · simp only [if_pos hty]
      cases obi with
      | none => simp
      | some i =>
        by_cases hi : i = ""
        · simp [hi]
        · simp only [hi, if_false, List.mem_singleton]
          intro hEq
          exact set_tail_ne _ " disable" " outbound-interface " _ (by decide) hEq
    · simp only [if_neg hty]
      simp
  · by_cases hty : ty = NATType.destination
    · simp only [if_pos hty]
      cases ibi with
      | none => simp
      | some i =>
        by_cases hi : i = ""
        · simp [hi]
        · simp only [hi, if_false, List.mem_singleton]
          intro hEq
          exact set_tail_ne _ " disable" " inbound-interface " _ (by decide) hEq
    · simp only [if_neg hty]
      simp
  · cases proto with
    | none => simp
    | some p =>
      by_cases hp : p = ""
      · simp [hp]
      · simp only [hp, if_false, List.mem_singleton]
        intro hEq
        exact set_tail_ne _ " disable" " protocol " _ (by decide) hEq
  · cases src with
    | none => simp
    | some s =>
      obtain ⟨sa, sp⟩ := s
      simp only [List.append_assoc, List.mem_append, not_or]
      refine ⟨?_, ?_⟩
      · cases sa with
        | none => simp
        | some a =>
          by_cases ha : a = ""
          · simp [ha]
          · simp only [ha, if_false, List.mem_singleton]
            intro hEq
            exact set_tail_ne _ " disable" " source address " _ (by decide) hEq
      · cases sp with
        | none => simp
        | some p =>
          by_cases hp : p = ""
          · simp [hp]
          · simp only [hp, if_false, List.mem_singleton]
            intro hEq
            exact set_tail_ne _ " disable" " source port " _ (by decide) hEq
  · cases dst with
    | none => simp
    | some s =>
      obtain ⟨sa, sp⟩ := s
      simp only [List.append_assoc, List.mem_append, not_or]
      refine ⟨?_, ?_⟩
      · cases sa with
        | none => simp
        | some a =>
          by_cases ha : a = ""
          · simp [ha]
          · simp only [ha, if_false, List.mem_singleton]
            intro hEq
            exact set_tail_ne _ " disable" " destination address " _ (by decide) hEq
      · cases sp with
        | none => simp
        | some p =>
          by_cases hp : p = ""
          · simp [hp]
          · simp only [hp, if_false, List.mem_singleton]
            intro hEq
            exact set_tail_ne _ " disable" " destination port " _ (by decide) hEq
  · cases tr with
    | none => simp
    | some t =>
      obtain ⟨ta, tp⟩ := t
      simp only [List.append_assoc, List.mem_append, not_or]
      refine ⟨?_, ?_⟩
      · cases ta with
        | none => simp
        | some a =>
          by_cases ha : a = ""
          · simp [ha]
          · simp only [ha, if_false, List.mem_singleton]
            intro hEq
            exact set_tail_ne _ " disable" " translation address " _ (by decide) hEq
      · cases tp with
        | none => simp
        | some p =>
          by_cases hp : p = ""
          · simp [hp]
          · simp only [hp, if_false, List.mem_singleton]
            intro hEq
            exact set_tail_ne _ " disable" " translation port " _ (by decide) hEq
  · simp

theorem nat_build_split (num : Nat) (ty : NATType) (desc obi ibi : Option String)
    (src dst tr : Option NATAddress) (proto : Option String) :
    buildNATRuleCommands ⟨num, ty, desc, true, obi, ibi, src, dst, tr, proto⟩ =
      buildNATRuleCommands ⟨num, ty, desc, false, obi, ibi, src, dst, tr, proto⟩ ++
        [natToggle ⟨num, ty, desc, true, obi, ibi, src, dst, tr, proto⟩] := by
  unfold buildNATRuleCommands natToggle natRulePath
  simp

theorem nat_toggle_spec (rule : NATRule) :
    (buildNATRuleCommands rule).count (natToggle rule) = (if rule.disabled then 1 else 0) ∧
    (rule.disabled = true →
      (buildNATRuleCommands rule).getLast? = some (natToggle rule)) := by
  rcases rule with ⟨num, ty, desc, dis, obi, ibi, src, dst, tr, proto⟩
  cases dis with
  | false =>
    refine ⟨?_, ?_⟩
    · rw [List.count_eq_zero.2 (nat_pre_no_toggle num ty desc obi ibi src dst tr proto)]
      rfl
    · intro hx
      exact Bool.noConfusion hx
  | true =>
    obtain ⟨hc, hl⟩ :=
      count_getLast_of_concat (nat_build_split num ty desc obi ibi src dst tr proto)
        (nat_pre_no_toggle num ty desc obi ibi src dst tr proto)
    exact ⟨hc, fun _ => hl⟩

theorem nat_no_delete (rule : NATRule) :
    natDeleteToggle rule ∉ buildNATRuleCommands rule := by
  rcases rule with ⟨num, ty, desc, dis, obi, ibi, src, dst, tr, proto⟩
  unfold buildNATRuleCommands natDeleteToggle
  simp only [List.append_assoc, List.mem_append, not_or]
  refine ⟨?_, ?_, ?_, ?_, ?_, ?_, ?_, ?_⟩
  · cases desc with
    | none => simp
    | some d =>
      by_cases hd : d = ""
      · simp [hd]
      · simp only [hd, if_false, List.mem_singleton]
        intro hEq
        simp only [string_append_assoc] at hEq
        exact delete_ne_set_stmt _ _ hEq
  · by_cases hty : ty = NATType.source
    · simp only [if_pos hty]
      cases obi with
      | none => simp
      | some i =>
        by_cases hi : i = ""
        · simp [hi]
        · simp only [hi, if_false, List.mem_singleton]
          intro hEq
          simp only [string_append_assoc] at hEq
          exact delete_ne_set_stmt _ _ hEq
    · simp only [if_neg hty]
      simp
  · by_cases hty : ty = NATType.destination
    · simp only [if_pos hty]
      cases ibi with
      | none => simp
      | some i =>
        by_cases hi : i = ""
        · simp [hi]
        · simp only [hi, if_false, List.mem_singleton]
          intro hEq
          simp only [string_append_assoc] at hEq
          exact delete_ne_set_stmt _ _ hEq
    · simp only [if_neg hty]
      simp
  · cases proto with
    | none => simp
    | some p =>
      by_cases hp : p = ""
      · simp [hp]
      · simp only [hp, if_false, List.mem_singleton]
        intro hEq
        simp only [string_append_assoc] at hEq
        exact delete_ne_set_stmt _ _ hEq
  · cases src with
    | none => simp
    | some s =>
      obtain ⟨sa, sp⟩ := s
      simp only [List.append_assoc, List.mem_append, not_or]
      refine ⟨?_, ?_⟩
      · cases sa with
        | none => simp
        | some a =>
          by_cases ha : a = ""
          · simp [ha]
          · simp only [ha, if_false, List.mem_singleton]
            intro hEq
            simp only [string_append_assoc] at hEq
            exact delete_ne_set_stmt _ _ hEq
      · cases sp with
        | none => simp
        | some p =>
          by_cases hp : p = ""
          · simp [hp]
          · simp only [hp, if_false, List.mem_singleton]
            intro hEq
            simp only [string_append_assoc] at hEq
            exact delete_ne_set_stmt _ _ hEq
  · cases dst with
    | none => simp
    | some s =>
      obtain ⟨sa, sp⟩ := s
      simp only [List.append_assoc, List.mem_append, not_or]
      refine ⟨?_, ?_⟩
      · cases sa with
        | none => simp
        | some a =>
          by_cases ha : a = ""
          · simp [ha]
          · simp only [ha, if_false, List.mem_singleton]
            intro hEq
            simp only [string_append_assoc] at hEq
            exact delete_ne_set_stmt _ _ hEq
      · cases sp with
        | none => simp
        | some p =>
          by_cases hp : p = ""
          · simp [hp]
          · simp only [hp, if_false, List.mem_singleton]
            intro hEq
            simp only [string_append_assoc] at hEq
            exact delete_ne_set_stmt _ _ hEq
  · cases tr with
    | none => simp
    | some t =>
      obtain ⟨ta, tp⟩ := t
      simp only [List.append_assoc, List.mem_append, not_or]
      refine ⟨?_, ?_⟩
      · cases ta with
        | none => simp
        | some a =>
          by_cases ha : a = ""
          · simp [ha]
          · simp only [ha, if_false, List.mem_singleton]
            intro hEq
            simp only [string_append_assoc] at hEq
            exact delete_ne_set_stmt _ _ hEq
      · cases tp with
        | none => simp
        | some p =>
          by_cases hp : p = ""
          · simp [hp]
          · simp only [hp, if_false, List.mem_singleton]
            intro hEq
            simp only [string_append_assoc] at hEq
            exact delete_ne_set_stmt _ _ hEq
  · cases dis with
    | false => simp
    | true =>
      simp only [if_true, List.mem_singleton]
      intro hEq
      simp only [string_append_assoc] at hEq
      exact delete_ne_set_stmt _ _ hEq

theorem interfaceToggle_true (nm : String) (ty : InterfaceType) (desc : Option String)
    (mtu : Option Nat) (mac : Option String) (ad : AddressConfig) (vl : Option VLANConfig)
    (bd : Option BondConfig) (br : Option BridgeConfig) :
    interfaceToggle ⟨nm, ty, desc, true, mtu, mac, ad, vl, bd, br⟩ =
      "delete " ++ interfaceBasePath ⟨nm, ty, desc, true, mtu, mac, ad, vl, bd, br⟩
        ++ " disable" := rfl

theorem interfaceToggle_false (nm : String) (ty : InterfaceType) (desc : Option String)
    (mtu : Option Nat) (mac : Option String) (ad : AddressConfig) (vl : Option VLANConfig)
    (bd : Option BondConfig) (br : Option BridgeConfig) :
    interfaceToggle ⟨nm, ty, desc, false, mtu, mac, ad, vl, bd, br⟩ =
      "set " ++ interfaceBasePath ⟨nm, ty, desc, false, mtu, mac, ad, vl, bd, br⟩
        ++ " disable" := rfl

theorem interface_toggle_spec (iface : NetworkInterface) :
    (buildInterfaceCommands iface).count (interfaceToggle iface) = 1 ∧
    (buildInterfaceCommands iface).getLast? = some (interfaceToggle iface) := by
  rcases iface with ⟨nm, ty, desc, en, mtu, mac, addrs, vl, bd, br⟩
  obtain ⟨ip4, ip6, dh, dh6⟩ := addrs
  cases en with
  | true =>
    refine count_getLast_of_concat rfl ?_
    rw [interfaceToggle_true]
    simp only [List.append_assoc, List.mem_append, not_or]
    refine ⟨?_, ?_, ?_, ?_, ?_, ?_, ?_, ?_, ?_, ?_⟩
    · cases desc with
      | none => simp
      | some d =>
        by_cases hd : d = ""
        · simp [hd]
        · simp only [hd, if_false, List.mem_singleton]
          intro hEq
          simp only [string_append_assoc] at hEq
          exact delete_ne_set_stmt _ _ hEq
    · cases mtu with
      | none => simp
      | some m =>
        by_cases hm : m = 0
        · simp [hm]
        · simp only [hm, if_false, List.mem_singleton]
          intro hEq
          simp only [string_append_assoc] at hEq
          exact delete_ne_set_stmt _ _ hEq
    · cases mac with
      | none => simp
      | some m =>
        by_cases hm : m = ""
        · simp [hm]
        · simp only [hm, if_false, List.mem_singleton]
          intro hEq
          simp only [string_append_assoc] at hEq
          exact delete_ne_set_stmt _ _ hEq
    · simp only [List.mem_map, not_exists, not_and]
      intro m hm hEq
      simp only [string_append_assoc] at hEq
      exact delete_ne_set_stmt _ _ hEq.symm
    · simp only [List.mem_map, not_exists, not_and]
      intro m hm hEq
      simp only [string_append_assoc] at hEq
      exact delete_ne_set_stmt _ _ hEq.symm
    · cases dh with
      | false => simp
      | true =>
        simp only [if_true, List.mem_singleton]
        intro hEq
        simp only [string_append_assoc] at hEq
        exact delete_ne_set_stmt _ _ hEq
    · cases dh6 with
      | false => simp
      | true =>
        simp only [if_true, List.mem_singleton]
        intro hEq
        simp only [string_append_assoc] at hEq
        exact delete_ne_set_stmt _ _ hEq
    · by_cases hty : ty = InterfaceType.vlan
      · simp only [if_pos hty]
        cases vl with
        | none => simp
        | some v =>
          simp only [List.mem_singleton]
          intro hEq
          simp only [string_append_assoc] at hEq
          exact delete_ne_set_stmt _ _ hEq
      · simp only [if_neg hty]
        simp
    · by_cases hty : ty = InterfaceType.bond
      · simp only [if_pos hty]
        cases bd with
        | none => simp
        | some b =>
          obtain ⟨bmode, bmem, bprim, bhash⟩ := b
          simp only [List.append_assoc, List.mem_append, not_or]
          refine ⟨?_, ?_, ?_, ?_⟩
          · simp only [List.mem_singleton]
            intro hEq
            simp only [string_append_assoc] at hEq
            exact delete_ne_set_stmt _ _ hEq
          · simp only [List.mem_map, not_exists, not_and]
            intro m hm hEq
            simp only [string_append_assoc] at hEq
            exact delete_ne_set_stmt _ _ hEq.symm
          · cases bprim with
            | none => simp
            | some p =>
              by_cases hp : p = ""
              · simp [hp]
              · simp only [hp, if_false, List.mem_singleton]
                intro hEq
                simp only [string_append_assoc] at hEq
                exact delete_ne_set_stmt _ _ hEq
          · cases bhash with
            | none => simp
            | some p =>
              by_cases hp : p = ""
              · simp [hp]
              · simp only [hp, if_false, List.mem_singleton]
                intro hEq
                simp only [string_append_assoc] at hEq
                exact delete_ne_set_stmt _ _ hEq
      · simp only [if_neg hty]
        simp
    · by_cases hty : ty = InterfaceType.bridge
      · simp only [if_pos hty]
        cases br with
        | none => simp
        | some b =>
          obtain ⟨bmem, bstp, bag, bmax⟩ := b
          simp only [List.append_assoc, List.mem_append, not_or]
          refine ⟨?_, ?_, ?_, ?_⟩
          · simp only [List.mem_map, not_exists, not_and]
            intro m hm hEq
            simp only [string_append_assoc] at hEq
            exact delete_ne_set_stmt _ _ hEq.symm
          · cases bstp with
            | false => simp
            | true =>
              simp only [if_true, List.mem_singleton]
              intro hEq
              simp only [string_append_assoc] at hEq
              exact delete_ne_set_stmt _ _ hEq
          · cases bag with
            | none => simp
            | some a =>
              by_cases ha : a = 0
              · simp [ha]
              · simp only [ha, if_false, List.mem_singleton]
                intro hEq
                simp only [string_append_assoc] at hEq
                exact delete_ne_set_stmt _ _ hEq
          · cases bmax with
            | none => simp
            | some a =>
              by_cases ha : a = 0
              · simp [ha]
              · simp only [ha, if_false, List.mem_singleton]
                intro hEq
                simp only [string_append_assoc] at hEq
                exact delete_ne_set_stmt _ _ hEq
      · simp only [if_neg hty]
        simp
  | false =>
    refine count_getLast_of_concat rfl ?_
    rw [interfaceToggle_false]
    simp only [List.append_assoc, List.mem_append, not_or]
    refine ⟨?_, ?_, ?_, ?_, ?_, ?_, ?_, ?_, ?_, ?_⟩
    · cases desc with
      | none => simp
      | some d =>
        by_cases hd : d = ""
        · simp [hd]
        · simp only [hd, if_false, List.mem_singleton]
          intro hEq
          exact set_tail_ne _ " disable" " description " _ (by decide) hEq
    · cases mtu with
      | none => simp
      | some m =>
        by_cases hm : m = 0
        · simp [hm]
        · simp only [hm, if_false, List.mem_singleton]
          intro hEq
          exact set_tail_ne _ " disable" " mtu " _ (by decide) hEq
    · cases mac with
      | none => simp
      | some m =>
        by_cases hm : m = ""
        · simp [hm]
        · simp only [hm, if_false, List.mem_singleton]
          intro hEq
          exact set_tail_ne _ " disable" " mac " _ (by decide) hEq
    · simp only [List.mem_map, not_exists, not_and]
      intro m hm hEq
      exact set_tail_ne _ " disable" " address " _ (by decide) hEq.symm
    · simp only [List.mem_map, not_exists, not_and]
      intro m hm hEq
      exact set_tail_ne _ " disable" " address " _ (by decide) hEq.symm
    · cases dh with
      | false => simp
      | true =>
        simp only [if_true, List.mem_singleton]
        intro hEq
        exact set_tail_ne_fixed _ " disable" " address dhcp" (by decide) hEq
    · cases dh6 with
      | false => simp
      | true =>
        simp only [if_true, List.mem_singleton]
        intro hEq
        exact set_tail_ne_fixed _ " disable" " address dhcpv6" (by decide) hEq
    · by_cases hty : ty = InterfaceType.vlan
      · simp only [if_pos hty]
        cases vl with
        | none => simp
        | some v =>
          simp only [List.mem_singleton]
          intro hEq
          exact set_tail_ne _ " disable" " vlan id " _ (by decide) hEq
      · simp only [if_neg hty]
        simp
    · by_cases hty : ty = InterfaceType.bond
      · simp only [if_pos hty]
        cases bd with
        | none => simp
        | some b =>
          obtain ⟨bmode, bmem, bprim, bhash⟩ := b
          simp only [List.append_assoc, List.mem_append, not_or]
          refine ⟨?_, ?_, ?_, ?_⟩
          · simp only [List.mem_singleton]
            intro hEq
            exact set_tail_ne _ " disable" " mode " _ (by decide) hEq
          · simp only [List.mem_map, not_exists, not_and]
            intro m hm hEq
            exact set_tail_ne _ " disable" " member interface " _ (by decide) hEq.symm
          · cases bprim with
            | none => simp
            | some p =>
              by_cases hp : p = ""
              · simp [hp]
              · simp only [hp, if_false, List.mem_singleton]
                intro hEq
                exact set_tail_ne _ " disable" " primary " _ (by decide) hEq
          · cases bhash with
            | none => simp
            | some p =>
              by_cases hp : p = ""
              · simp [hp]
              · simp only [hp, if_false, List.mem_singleton]
                intro hEq
                exact set_tail_ne _ " disable" " hash-policy " _ (by decide) hEq
      · simp only [if_neg hty]
        simp
    · by_cases hty : ty = InterfaceType.bridge
      · simp only [if_pos hty]
        cases br with
        | none => simp
        | some b =>
          obtain ⟨bmem, bstp, bag, bmax⟩ := b
          simp only [List.append_assoc, List.mem_append, not_or]
          refine ⟨?_, ?_, ?_, ?_⟩
          · simp only [List.mem_map, not_exists, not_and]
            intro m hm hEq
            exact set_tail_ne _ " disable" " member interface " _ (by decide) hEq.symm
          · cases bstp with
            | false => simp
            | true =>
              simp only [if_true, List.mem_singleton]
              intro hEq
              exact set_tail_ne_fixed _ " disable" " stp" (by decide) hEq
          · cases bag with
            | none => simp
            | some a =>
              by_cases ha : a = 0
              · simp [ha]
              · simp only [ha, if_false, List.mem_singleton]
                intro hEq
                exact set_tail_ne _ " disable" " aging " _ (by decide) hEq
          · cases bmax with
            | none => simp
            | some a =>
              by_cases ha : a = 0
              · simp [ha]
              · simp only [ha, if_false, List.mem_singleton]
                intro hEq
                exact set_tail_ne _ " disable" " max-age " _ (by decide) hEq
      · simp only [if_neg hty]
        simp

-- ============================================================
-- Claim theorems
-- ============================================================

/-- C1: the duality contract `parseKind(parseRaw(render(buildKindCommands(m))))
= m` fails for the IPSecSite kind.  For the concrete site `c1Site` the builder
produces a non-empty command list, the parsed tree does contain the
`vpn ipsec site-to-site peer` subtree, and yet `parseIPSecSites` returns the
empty list — no model field-equal to `c1Site` (or any model at all) is
reconstructed, because the source's IPsec parse direction is a stub that never
pushes a site. -/
theorem ipsec_duality_fails :
    buildIPSecCommands c1Site ≠ [] ∧
    (getPath (parse (renderLines (buildIPSecCommands c1Site)))
      ["vpn", "ipsec", "site-to-site", "peer"]).isSome = true ∧
    parseIPSecSites (parse (renderLines (buildIPSecCommands c1Site))) = [] :=
  ⟨by decide, by rfl, parseIPSecSites_nil _⟩

/-- C2 counterexample: for the spec's end-to-end ethernet model the builder
does NOT produce the claimed statement list — the address literal
`192.168.1.1/24` contains neither a space nor a single quote, so
`sanitizeConfigValue` leaves it unquoted, while the claim requires it
single-quoted. -/
theorem eth1_batch_address_not_quoted :
    buildInterfaceCommands c2Iface ≠
      ["set interfaces ethernet eth1 description 'LAN Interface'",
       "set interfaces ethernet eth1 address '192.168.1.1/24'",
       "delete interfaces ethernet eth1 disable"] := by decide

/-- C2 amended: the builder returns exactly the three ordered statements with
the address literal unquoted, and executing that batch with commit and save
enabled over a clean transcript writes exactly
`configure; the three statements; commit; save; exit` in one shell batch and
reports success. -/
theorem eth1_batch_amended :
    buildInterfaceCommands c2Iface =
      ["set interfaces ethernet eth1 description 'LAN Interface'",
       "set interfaces ethernet eth1 address 192.168.1.1/24",
       "delete interfaces ethernet eth1 disable"] ∧
    fullCommands (buildInterfaceCommands c2Iface) true true =
      ["configure",
       "set interfaces ethernet eth1 description 'LAN Interface'",
       "set interfaces ethernet eth1 address 192.168.1.1/24",
       "delete interfaces ethernet eth1 disable",
       "commit", "save", "exit"] ∧
    (executeWithRollback (buildInterfaceCommands c2Iface) true true "" "").sent =
      [["configure",
        "set interfaces ethernet eth1 description 'LAN Interface'",
        "set interfaces ethernet eth1 address 192.168.1.1/24",
        "delete interfaces ethernet eth1 disable",
        "commit", "save", "exit"]] ∧
    (executeWithRollback (buildInterfaceCommands c2Iface) true true "" "").outcome =
      ExecOutcome.ok := by decide

/-- C3 counterexample: an enabled firewall rule produces NO enable/disable
statement at all — neither `delete <path> disable` nor `set <path> disable` —
contradicting the claim that both branches always produce exactly one toggle
statement for firewall rules. -/
theorem enabled_firewall_rule_no_toggle :
    c3Rule.disabled = false ∧
    buildFirewallRuleCommands "RULES" c3Rule =
      ["set firewall name RULES rule 10 action accept"] ∧
    ("delete firewall name RULES rule 10 disable") ∉ buildFirewallRuleCommands "RULES" c3Rule ∧
    ("set firewall name RULES rule 10 disable") ∉ buildFirewallRuleCommands "RULES" c3Rule := by
  decide

/-- C3 amended: network interfaces carry their toggle statement exactly once
(`delete <path> disable` when enabled, `set <path> disable` when disabled)
and it is the last statement; firewall rules and NAT rules carry
`set <path> disable` exactly once and last when the rule is disabled, zero
times when it is enabled, and never carry a `delete <path> disable`
statement. -/
theorem toggle_emission_amended :
    (∀ iface : NetworkInterface,
      (buildInterfaceCommands iface).count (interfaceToggle iface) = 1 ∧
      (buildInterfaceCommands iface).getLast? = some (interfaceToggle iface)) ∧
    (∀ (nm : String) (rule : FirewallRule),
      (buildFirewallRuleCommands nm rule).count (ruleToggle nm rule.number) =
        (if rule.disabled then 1 else 0) ∧
      (rule.disabled = true →
        (buildFirewallRuleCommands nm rule).getLast? = some (ruleToggle nm rule.number)) ∧
      ruleDeleteToggle nm rule.number ∉ buildFirewallRuleCommands nm rule) ∧
    (∀ rule : NATRule,
      (buildNATRuleCommands rule).count (natToggle rule) = (if rule.disabled then 1 else 0) ∧
      (rule.disabled = true →
        (buildNATRuleCommands rule).getLast? = some (natToggle rule)) ∧
      natDeleteToggle rule ∉ buildNATRuleCommands rule) :=
  ⟨interface_toggle_spec,
   fun nm rule =>
     ⟨(fw_toggle_spec nm rule).1, (fw_toggle_spec nm rule).2, fw_no_delete nm rule⟩,
   fun rule => ⟨(nat_toggle_spec rule).1, (nat_toggle_spec rule).2, nat_no_delete rule⟩⟩

/-- C3 amended witness: the enabled interface `c2Iface` ends with its delete
toggle, and the disabled rule instances end with their `set ... disable`
toggle. -/
theorem toggle_emission_amended_witness :
    (buildInterfaceCommands c2Iface).getLast? = some (interfaceToggle c2Iface) ∧
    c3dRule.disabled = true ∧
    (buildFirewallRuleCommands "RULES" c3dRule).getLast? = some (ruleToggle "RULES" 10) ∧
    c3dNat.disabled = true ∧
    (buildNATRuleCommands c3dNat).getLast? = some (natToggle c3dNat) := by
  refine ⟨(toggle_emission_amended.1 c2Iface).2, rfl, ?_, rfl, ?_⟩
  · exact (toggle_emission_amended.2.1 "RULES" c3dRule).2.1 rfl
  · exact (toggle_emission_amended.2.2 c3dNat).2.1 rfl

/-- C4: whenever the executor detects a failure in the main transcript — an
error-marker line anywhere, or (with the commit option set) a commit-failure
marker — it issues exactly one further shell batch holding the compensating
sequence `[configure, rollback 0, commit, save, exit]` before returning, and
the surfaced error is `VyOSCommandError` for an error-marker line and the
distinct `VyOSCommitError` for a commit failure; a transcript with no markers
triggers no rollback batch and reports success.  The hypothesis `hrb` fixes
the scenario in which the rollback transcript itself is clean (otherwise the
source wraps both causes in a fatal combined error). -/
theorem executor_rollback_contract (commands : List String) (commit save : Bool)
    (mainOutput rollbackOutput : String)
    (hrb : hasCommitFailed rollbackOutput = false) :
    (parseErrors mainOutput ≠ [] →
      (executeWithRollback commands commit save mainOutput rollbackOutput).sent =
        [fullCommands commands commit save, rollbackCommands 0] ∧
      (executeWithRollback commands commit save mainOutput rollbackOutput).outcome =
        ExecOutcome.cmdError) ∧
    (parseErrors mainOutput = [] → commit = true → hasCommitFailed mainOutput = true →
      (executeWithRollback commands commit save mainOutput rollbackOutput).sent =
        [fullCommands commands commit save, rollbackCommands 0] ∧
      (executeWithRollback commands commit save mainOutput rollbackOutput).outcome =
        ExecOutcome.commitError) ∧
    (parseErrors mainOutput = [] → hasCommitFailed mainOutput = false →
      (executeWithRollback commands commit save mainOutput rollbackOutput).sent =
        [fullCommands commands commit save] ∧
      (executeWithRollback commands commit save mainOutput rollbackOutput).outcome =
        ExecOutcome.ok) := by
  refine ⟨fun h1 => ?_, fun h1 h2 h3 => ?_, fun h1 h2 => ?_⟩
  · simp [executeWithRollback, h1, hrb]
  · subst h2
    simp [executeWithRollback, h1, h3, hrb]
  · simp [executeWithRollback, h1, h2]

/-- C4 witness: a transcript containing `Error: bad` makes the executor issue
the main batch followed by exactly the rollback sequence and report the
command-error outcome. -/
theorem executor_rollback_contract_witness :
    hasCommitFailed "" = false ∧
    parseErrors "Error: bad" ≠ [] ∧
    (executeWithRollback ["set x y"] true true "Error: bad" "").sent =
      [["configure", "set x y", "commit", "save", "exit"],
       ["configure", "rollback 0", "commit", "save", "exit"]] ∧
    (executeWithRollback ["set x y"] true true "Error: bad" "").outcome =
      ExecOutcome.cmdError := by
  refine ⟨by decide, by decide, ?_, ?_⟩
  · exact ((executor_rollback_contract ["set x y"] true true "Error: bad" ""
      (by decide)).1 (by decide)).1
  · exact ((executor_rollback_contract ["set x y"] true true "Error: bad" ""
      (by decide)).1 (by decide)).2

/-- C5 counterexample: the source NAT rule `c5Rule` carries the user-supplied
source address `has space`; the builder embeds it verbatim as the trailing
token of its `set` statement, and the statement that would result from
passing it through the Sanitizer is not in the output. -/
theorem nat_source_address_not_sanitized :
    buildNATRuleCommands c5Rule = ["set nat source rule 10 source address has space"] ∧
    sanitizeConfigValue "has space" = "'has space'" ∧
    ("set nat source rule 10 source address " ++ sanitizeConfigValue "has space")
      ∉ buildNATRuleCommands c5Rule := by decide

/-- C5 amended: the Sanitizer is applied to free-text literals such as
interface descriptions, but firewall/NAT rule addresses and ports (and
similar tokens) are embedded verbatim: every non-empty description of a
network interface appears sanitized in the output, while every non-empty
source address of a NAT rule appears raw. -/
theorem sanitizer_usage_amended :
    (∀ (iface : NetworkInterface) (d : String),
      iface.description = some d → d ≠ "" →
      ("set " ++ interfaceBasePath iface ++ " description " ++ sanitizeConfigValue d)
        ∈ buildInterfaceCommands iface) ∧
    (∀ (r : NATRule) (src : NATAddress) (a : String),
      r.source = some src → src.address = some a → a ≠ "" →
      ("set " ++ natRulePath r ++ " source address " ++ a) ∈ buildNATRuleCommands r) :=
  ⟨fun iface d hd hne => by simp [buildInterfaceCommands, hd, hne],
   fun r src a hs ha hne => by simp [buildNATRuleCommands, hs, ha, hne]⟩

/-- C5 amended witness: the sanitized description of `c2Iface` and the raw
source address of `c5Rule` are both members of the respective outputs. -/
theorem sanitizer_usage_amended_witness :
    c2Iface.description = some "LAN Interface" ∧
    ("set " ++ interfaceBasePath c2Iface ++ " description " ++ sanitizeConfigValue "LAN Interface")
      ∈ buildInterfaceCommands c2Iface ∧
    c5Rule.source = some { address := some "has space", port := none } ∧
    ("set " ++ natRulePath c5Rule ++ " source address " ++ "has space")
      ∈ buildNATRuleCommands c5Rule :=
  ⟨rfl,
   sanitizer_usage_amended.1 c2Iface "LAN Interface" rfl (by decide),
   rfl,
   sanitizer_usage_amended.2 c5Rule { address := some "has space", port := none }
     "has space" rfl rfl (by decide)⟩

/-- C7 counterexample: a tab is a whitespace character, yet
`sanitizeConfigValue` returns a tab-containing value unchanged instead of
wrapping it in single quotes — the quoting trigger is a space character, not
arbitrary whitespace. -/
theorem sanitize_tab_not_wrapped :
    ("a\tb".toList.any Char.isWhitespace) = true ∧
    sanitizeConfigValue "a\tb" = "a\tb" ∧
    sanitizeConfigValue "a\tb" ≠ "'a\tb'" := by decide

/-- C7 amended: the quote function is total and pure; a value containing a
space (U+0020) or a single quote is wrapped in single quotes with internal
single quotes backslash-escaped, every other value is returned unchanged
(`quoteSpecAmended` states this independently of the source definition), and
the three quoted examples evaluate as the spec lists them. -/
theorem sanitize_characterization_amended :
    (∀ v, sanitizeConfigValue v = quoteSpecAmended v) ∧
    sanitizeConfigValue "simple" = "simple" ∧
    sanitizeConfigValue "has space" = "'has space'" ∧
    sanitizeConfigValue "it's" = "'it\\'s'" :=
  ⟨sanitize_eq_quoteSpecAmended, by decide, by decide, by decide⟩

/-- C9: `parseIPSecSites` returns the empty list for every input tree — in
particular also for a tree that does contain a
`vpn ipsec site-to-site peer` entry — so the parse direction of the
bidirectional mapping is absent for the IPsec kind. -/
theorem parseIPSecSites_always_empty :
    (∀ config : ConfigNode, parseIPSecSites config = []) ∧
    (getPath (parse "set vpn ipsec site-to-site peer 203.0.113.5 ike-group IKE1")
      ["vpn", "ipsec", "site-to-site", "peer"]).isSome = true ∧
    parseIPSecSites (parse "set vpn ipsec site-to-site peer 203.0.113.5 ike-group IKE1") = [] :=
  ⟨parseIPSecSites_nil, by rfl, parseIPSecSites_nil _⟩
